import Mathlib

/-
  Shallow embedding of the BFQ (Budget Fair Queueing) I/O scheduler core,
  translated from block/bfq-iosched.c.  Machine integers are modelled as
  Nat with explicit reductions modulo 2^32 / 2^64 where the C code can
  wrap (sector arithmetic, jiffies comparisons, unsigned budget
  subtraction).  Stateful code is modelled by explicit state passing on a
  scheduler-state record; the few helpers that live in bfq-sched.c (which
  is not part of the tree, only included by reference) are modelled from
  the specification and marked as such in their doc comments.
-/

namespace BFQ

/-- Word size of the 64-bit unsigned quantities (sector_t, u64). -/
def W64 : Nat := 2 ^ 64

/-- Word size of 32-bit unsigned quantities (unsigned int / unsigned long on the 32-bit target). -/
def W32 : Nat := 2 ^ 32

/-- Timer tick frequency; the spec discusses the defaults at HZ = 1000. -/
def HZ : Nat := 1000

/-- msecs_to_jiffies at HZ = 1000 (exact: (m * HZ + 999) / 1000 = m). -/
def msecs_to_jiffies (m : Nat) : Nat := (m * HZ + 999) / 1000

/-- jiffies_to_msecs at HZ = 1000. -/
def jiffies_to_msecs (j : Nat) : Nat := j * (1000 / HZ)

/-- time_before(a, b) for 32-bit jiffies: (long)(a - b) < 0 in two's complement. -/
def timeBefore (a b : Nat) : Bool :=
  decide ((a % W32 + (W32 - b % W32)) % W32 ≥ 2 ^ 31)

/-- Max nr of dispatches in one round of service. -/
def bfq_quantum : Nat := 4

/-- Expiration time of each request (jiffies); index 1 is sync. -/
def bfq_fifo_expire_sync : Nat := HZ / 8
def bfq_fifo_expire_async : Nat := HZ / 4

/-- Maximum backwards seek, in KiB. -/
def bfq_back_max : Nat := 16 * 1024

/-- Penalty of a backwards seek. -/
def bfq_back_penalty : Nat := 2

/-- Idling period duration (jiffies). -/
def bfq_slice_idle : Nat := HZ / 125

/-- Default maximum budget values (sectors). -/
def bfq_max_budget_default : Nat := 16 * 1024
def bfq_max_budget_async_rq_default : Nat := 4

/-- Default timeout values (jiffies). -/
def bfq_timeout_sync : Nat := HZ / 8
def bfq_timeout_async : Nat := HZ / 25

/-- Below this threshold (in ms) thinktime is immediate. -/
def BFQ_MIN_TT : Nat := 2

/-- hw_tag detection thresholds. -/
def BFQ_HW_QUEUE_THRESHOLD : Nat := 4
def BFQ_HW_QUEUE_SAMPLES : Nat := 32

/-- Budget feedback step. -/
def BFQ_BUDGET_STEP : Nat := 128

/-- Min samples for peak-rate estimation. -/
def BFQ_PEAK_RATE_SAMPLES : Nat := 32

/-- Shift used for peak rate fixed precision calculations. -/
def BFQ_RATE_SHIFT : Nat := 16

/-- Expiration reasons (enum bfqq_expiration). -/
inductive bfqq_expiration where
  | BFQ_BFQQ_TOO_IDLE
  | BFQ_BFQQ_BUDGET_TIMEOUT
  | BFQ_BFQQ_BUDGET_EXHAUSTED
  | BFQ_BFQQ_NO_MORE_REQUESTS
deriving DecidableEq

/-- I/O priority classes. -/
inductive IoprioClass where
  | RT
  | BE
  | IDLE
deriving DecidableEq

/-- The slice of a cfq_io_context the core reads (seek statistics, task count). -/
structure Cic where
  seekSamples : Nat
  seekMean : Nat
  nrTasks : Nat
deriving DecidableEq

/-- A block request as seen by the scheduler: identity, owning queue,
    start sector, size in sectors, direction flags, FIFO deadline and the
    io-context it carries. -/
structure Request where
  rid : Nat
  qid : Nat
  pos : Nat
  len : Nat
  sync : Bool
  meta : Bool
  fifoTime : Nat
  cic : Cic
deriving DecidableEq

/-- A bfq_queue: the per-producer leaf.  sortList is the elevator sort
    tree flattened in sector order; fifo is the FIFO list; the remaining
    fields mirror the C struct (entity budget/service inlined). -/
structure BfqQueue where
  qid : Nat
  sortList : List Request
  fifo : List Request
  nextRq : Option Request
  budget : Nat
  service : Nat
  maxBudget : Nat
  budgetsAssigned : Nat
  budgetTimeout : Nat
  dispatched : Nat
  queuedSync : Nat
  queuedAsync : Nat
  metaPending : Nat
  sync : Bool
  busy : Bool
  idleWindow : Bool
  budgetNew : Bool
  waitRequest : Bool
  fifoExpire : Bool
  mustAlloc : Bool
  ioprioClass : IoprioClass
deriving DecidableEq

/-- The bfq_data device state.  active is the active queue held by value;
    busy holds the other busy queues in the order the (modelled) B-WF2Q+
    scheduler would hand them out; expiredTrace is a ghost log recording
    the reason argument of every bfq_bfqq_expire call, used to state
    temporal properties; idlingQid is a ghost recording which queue the
    idle timer was armed for. -/
structure SchedState where
  active : Option BfqQueue
  busy : List BfqQueue
  busyQueues : Nat
  queued : Nat
  driver : List Request
  rqInDriverSync : Nat
  rqInDriverAsync : Nat
  syncFlight : Nat
  activeCic : Option Cic
  lastPosition : Nat
  jiffies : Nat
  nowUs : Nat
  lastBudgetStart : Nat
  lastIdlingStart : Nat
  timerExpires : Option Nat
  idlingQid : Option Nat
  expiredTrace : List (Nat × bfqq_expiration)
  peakRate : Nat
  peakRateSamples : Nat
  maxRqInDriver : Nat
  hwTagSamples : Nat
  hwTag : Bool
  bfqQuantum : Nat
  fifoExpireSync : Nat
  fifoExpireAsync : Nat
  backMax : Nat
  backPenalty : Nat
  sliceIdle : Nat
  maxBudgetG : Nat
  userMaxBudget : Nat
  maxBudgetAsyncRq : Nat
  timeoutSync : Nat
  timeoutAsync : Nat
  desktop : Bool
deriving DecidableEq

/-- bfq_class_idle: the queue is in the IDLE I/O priority class. -/
def bfq_class_idle (q : BfqQueue) : Bool := q.ioprioClass = IoprioClass.IDLE

/-- bfq_sample_valid. -/
def bfq_sample_valid (samples : Nat) : Bool := samples > 80

/-- CIC_SEEKY: seek_mean above 8 * 1024. -/
def CIC_SEEKY (cic : Cic) : Bool := cic.seekMean > 8 * 1024

/-- timer_pending on the idle slice timer. -/
def timerPending (st : SchedState) : Bool := st.timerExpires.isSome

/-- rq_in_driver(bfqd): total requests handed to the driver, both directions. -/
def rq_in_driver (st : SchedState) : Nat := st.rqInDriverSync + st.rqInDriverAsync

/-- Distance of sector s from the head position last, as computed by
    bfq_choose_req: forward distance if s is ahead; penalized backward
    distance if within back_max sectors behind; none when the request
    wraps.  Arithmetic is u64. -/
def bfq_rq_dist (last back_max penalty s : Nat) : Option Nat :=
  if s ≥ last then some (s - last)
  else if (s + back_max) % W64 ≥ last then some ((last - s) * penalty % W64)
  else none

/-- bfq_choose_req: choose which of rq1 and rq2 is best served now, by
    sync/meta preference and then head proximity with penalized bounded
    backward seeks.  Null and aliased (same request) arguments behave as
    the pointer tests in the C code. -/
def bfq_choose_req (last backMaxKiB penalty : Nat) (rq1 rq2 : Option Request) :
    Option Request :=
  match rq1 with
  | none => rq2
  | some r1 =>
    match rq2 with
    | none => some r1
    | some r2 =>
      if r1.rid = r2.rid then some r2
      else if r1.sync ∧ ¬r2.sync then some r1
      else if r2.sync ∧ ¬r1.sync then some r2
      else if r1.meta ∧ ¬r2.meta then some r1
      else if r2.meta ∧ ¬r1.meta then some r2
      else
        let back_max := (backMaxKiB % W32) * 2 % W32
        match bfq_rq_dist last back_max penalty r1.pos,
              bfq_rq_dist last back_max penalty r2.pos with
        | some d1, some d2 =>
          if d1 < d2 then some r1
          else if d2 < d1 then some r2
          else if r1.pos ≥ r2.pos then some r1 else some r2
        | some _, none => some r1
        | none, some _ => some r2
        | none, none => if r1.pos ≤ r2.pos then some r1 else some r2

/-- Neighbors of the element with identity rid in the (sector-ordered)
    list: the predecessor and successor, mirroring rb_prev / rb_next. -/
def listNeighbors (l : List Request) (rid : Nat) : Option Request × Option Request :=
  match l.findIdx? (fun r => r.rid == rid) with
  | none => (none, none)
  | some i => (if i = 0 then none else l[i - 1]?, l[i + 1]?)

/-- bfq_find_next_rq: best next request after last, chosen among the sort
    tree neighbors of last (wrapping to the first request when last is
    the greatest). -/
def bfq_find_next_rq (st : SchedState) (q : BfqQueue) (last : Request) :
    Option Request :=
  let (prev, next) := listNeighbors q.sortList last.rid
  let next :=
    match next with
    | some r => some r
    | none =>
      match q.sortList.head? with
      | some h => if h.rid ≠ last.rid then some h else none
      | none => none
  bfq_choose_req st.lastPosition st.backMax st.backPenalty next prev

/-- bfq_bfqq_budget_left: entity->budget - entity->service as unsigned
    64-bit arithmetic. -/
def bfq_bfqq_budget_left (q : BfqQueue) : Nat :=
  (q.budget + (W64 - q.service % W64)) % W64

/-- bfq_check_fifo: return the expired FIFO head, or none; sticky per
    slice via the fifo_expire flag, which is set by the first call. -/
def bfq_check_fifo (jiffies : Nat) (q : BfqQueue) : Option Request × BfqQueue :=
  if q.fifoExpire then (none, q)
  else
    let q := { q with fifoExpire := true }
    match q.fifo with
    | [] => (none, q)
    | rq :: _ => if timeBefore jiffies rq.fifoTime then (none, q) else (some rq, q)

/-- The request picked by one iteration of the __bfq_dispatch_requests
    loop: follow the expired FIFO path, else the next_rq. -/
def bfq_next_dispatch (jiffies : Nat) (q : BfqQueue) : Option Request × BfqQueue :=
  let p := bfq_check_fifo jiffies q
  match p.1 with
  | some r => (some r, p.2)
  | none => (p.2.nextRq, p.2)

/-- bfq_bfqq_budget_timeout: false while budget_new is set or the stamped
    deadline is still in the future. -/
def bfq_bfqq_budget_timeout (jiffies : Nat) (q : BfqQueue) : Bool :=
  if q.budgetNew then false
  else if timeBefore jiffies q.budgetTimeout then false
  else true

/-- bfq_default_budget: 3/4 of the device max budget, using the safe
    compile-time default during the first assignments under autotuning. -/
def bfq_default_budget (st : SchedState) (q : BfqQueue) : Nat :=
  let budget :=
    if q.budgetsAssigned < 194 ∧ st.userMaxBudget = 0 then bfq_max_budget_default
    else st.maxBudgetG
  budget - budget / 4

/-- bfq_min_budget: half the device max budget. -/
def bfq_min_budget (st : SchedState) : Nat := st.maxBudgetG / 2

/-- __bfq_bfqq_recalc_budget: feedback on the queue max_budget driven by
    the expiration reason; async queues always get the device max; the
    result is clamped to the device max once enough budgets were
    assigned and no user max is pinned; finally the entity budget is
    re-extended to cover next_rq.  Sync NO_MORE_REQUESTS returns early,
    leaving everything unchanged. -/
def __bfq_bfqq_recalc_budget (st : SchedState) (q : BfqQueue)
    (reason : bfqq_expiration) : BfqQueue :=
  if q.sync ∧ reason = bfqq_expiration.BFQ_BFQQ_NO_MORE_REQUESTS then q
  else
    let budget :=
      if q.sync then
        match reason with
        | bfqq_expiration.BFQ_BFQQ_TOO_IDLE =>
          if q.maxBudget > bfq_min_budget st + BFQ_BUDGET_STEP then
            q.maxBudget - BFQ_BUDGET_STEP
          else bfq_min_budget st
        | bfqq_expiration.BFQ_BFQQ_BUDGET_TIMEOUT => bfq_default_budget st q
        | bfqq_expiration.BFQ_BFQQ_BUDGET_EXHAUSTED =>
          min (q.maxBudget + 8 * BFQ_BUDGET_STEP) st.maxBudgetG
        | bfqq_expiration.BFQ_BFQQ_NO_MORE_REQUESTS => q.maxBudget
      else st.maxBudgetG
    let mb :=
      if q.budgetsAssigned ≥ 194 ∧ st.userMaxBudget = 0 ∧ budget > st.maxBudgetG then
        st.maxBudgetG
      else budget
    match q.nextRq with
    | some r => { q with maxBudget := mb, budget := max mb r.len }
    | none => { q with maxBudget := mb }

/-- bfq_calc_max_budget: sectors transferred in 0.75 * timeout at rate
    peak_rate (fixed point, u64). -/
def bfq_calc_max_budget (rate timeout : Nat) : Nat :=
  let m := (rate * 1000 % W64) * timeout % W64 / 2 ^ BFQ_RATE_SHIFT
  m - m / 4

/-- bfq_update_peak_rate: update the device peak-rate estimate from the
    elapsed slice and return the "slow" classification the caller uses
    (the C function returns expected > entity.budget). -/
def bfq_update_peak_rate (st : SchedState) (q : BfqQueue) (compensate : Bool) :
    Bool × SchedState :=
  if ¬q.sync ∨ q.budgetNew then (false, st)
  else
    let endUs := if compensate then st.lastIdlingStart else st.nowUs
    let usecs := endUs - st.lastBudgetStart
    if usecs < 100 ∨ usecs ≥ 2 ^ 63 then (false, st)
    else
      let bw := q.service * 2 ^ BFQ_RATE_SHIFT % W64 / usecs
      let timeout := jiffies_to_msecs st.timeoutSync
      let st :=
        if usecs > 20000 then
          let upd := bw > st.peakRate ∨ st.peakRateSamples = BFQ_PEAK_RATE_SAMPLES - 1
          let pr := if bw > st.peakRate then bw else st.peakRate
          let samples :=
            if st.peakRateSamples < BFQ_PEAK_RATE_SAMPLES then st.peakRateSamples + 1
            else st.peakRateSamples
          let mbg :=
            if samples = BFQ_PEAK_RATE_SAMPLES ∧ upd ∧ st.userMaxBudget = 0 then
              bfq_calc_max_budget pr timeout
            else st.maxBudgetG
          { st with peakRate := pr, peakRateSamples := samples, maxBudgetG := mbg }
        else st
      let expected := (bw * 1000 % W64) * timeout % W64 / 2 ^ BFQ_RATE_SHIFT
      (expected > q.budget, st)

/-- Modelled from the spec: bfq_bfqq_served lives in bfq-sched.c, which
    is not part of the tree.  The spec says service charged for delta
    sectors adds delta to entity.service; only the leaf-level charge is
    modelled. -/
def bfq_bfqq_served (q : BfqQueue) (served : Nat) : BfqQueue :=
  { q with service := q.service + served }

/-- Modelled from the spec: bfq_bfqq_charge_full_budget lives in
    bfq-sched.c, which is not part of the tree.  The spec says charging
    the full budget sets service = budget. -/
def bfq_bfqq_charge_full_budget (q : BfqQueue) : BfqQueue :=
  { q with service := q.budget }

/-- Modelled from the spec: bfq_get_next_queue lives in bfq-sched.c,
    which is not part of the tree.  The spec (next_leaf) guarantees that
    some busy leaf, chosen by B-WF2Q+ eligibility, is returned whenever
    one exists; the busy list is kept in the order the scheduler would
    hand the queues out, so the model takes its head.  When exactly one
    queue is busy this choice is forced for every faithful selector. -/
def bfq_get_next_queue (st : SchedState) : Option BfqQueue × SchedState :=
  match st.busy with
  | [] => (none, st)
  | q :: rest => (some q, { st with busy := rest })

/-- __bfq_set_active_queue: mark the fresh slice flags on the chosen
    queue (must_alloc, budget_new, clear fifo_expire) and age
    budgets_assigned, then install it as the active queue. -/
def __bfq_set_active_queue (st : SchedState) (bfqq : Option BfqQueue) :
    Option BfqQueue × SchedState :=
  match bfqq with
  | none => (none, { st with active := none })
  | some q =>
    let q := { q with mustAlloc := true, budgetNew := true, fifoExpire := false,
                      budgetsAssigned := (q.budgetsAssigned * 7 + 256) / 8 }
    (some q, { st with active := some q })

/-- bfq_set_active_queue: get and set a new active queue for service. -/
def bfq_set_active_queue (st : SchedState) : Option BfqQueue × SchedState :=
  let (q, st) := bfq_get_next_queue st
  __bfq_set_active_queue st q

/-- Modelled from the spec: __bfq_bfqd_reset_active together with the
    bfq-sched.c busy-list maintenance (bfq_del_bfqq_busy /
    bfq_activate_bfqq), absent from the tree.  On expiration the active
    queue is detached; if its sort tree is empty it stops being busy,
    otherwise it is re-activated into the scheduler (returned to the
    busy list). -/
def __bfq_bfqq_expire (st : SchedState) (q : BfqQueue) : SchedState :=
  let st := { st with active := none }
  if q.sortList.isEmpty then
    { st with busyQueues := st.busyQueues - 1 }
  else
    { st with busy := st.busy ++ [{ q with busy := true }] }

/-- bfq_bfqq_expire: classify the queue slow via the peak-rate update,
    convert a slow TOO_IDLE expiration into BUDGET_TIMEOUT, charge the
    full budget on BUDGET_TIMEOUT or async expiry, recalc the budget
    feedback and detach the queue.  The reason finally used is appended
    to the ghost expiredTrace. -/
def bfq_bfqq_expire (st : SchedState) (q : BfqQueue) (compensate : Bool)
    (reason : bfqq_expiration) : SchedState :=
  let p := bfq_update_peak_rate st q compensate
  let slow := p.1
  let st := p.2
  let reason :=
    if slow ∧ reason = bfqq_expiration.BFQ_BFQQ_TOO_IDLE then
      bfqq_expiration.BFQ_BFQQ_BUDGET_TIMEOUT
    else reason
  let q :=
    if reason = bfqq_expiration.BFQ_BFQQ_BUDGET_TIMEOUT ∨ ¬q.sync then
      bfq_bfqq_charge_full_budget q
    else q
  let q := __bfq_bfqq_recalc_budget st q reason
  let st := { st with expiredTrace := st.expiredTrace ++ [(q.qid, reason)] }
  __bfq_bfqq_expire st q

/-- bfq_select_queue: keep the active queue if it has budget and work,
    else expire it with the appropriate reason and pick a new one; with
    in-flight requests and the idle window (or a pending idle timer)
    return no queue while keeping the active one. -/
def bfq_select_queue (st : SchedState) : Option BfqQueue × SchedState :=
  match st.active with
  | none => bfq_set_active_queue st
  | some q =>
    if bfq_bfqq_budget_timeout st.jiffies q then
      let q := bfq_bfqq_charge_full_budget q
      bfq_set_active_queue
        (bfq_bfqq_expire st q false bfqq_expiration.BFQ_BFQQ_BUDGET_TIMEOUT)
    else
      match q.nextRq with
      | some r =>
        if r.len > bfq_bfqq_budget_left q then
          bfq_set_active_queue
            (bfq_bfqq_expire st q false bfqq_expiration.BFQ_BFQQ_BUDGET_EXHAUSTED)
        else (some q, st)
      | none =>
        if timerPending st ∨ (q.dispatched ≠ 0 ∧ q.idleWindow) then (none, st)
        else
          bfq_set_active_queue
            (bfq_bfqq_expire st q false bfqq_expiration.BFQ_BFQQ_NO_MORE_REQUESTS)

/-- bfq_updated_next_req: after a new next_rq selection, grow the entity
    budget to fit it, unless the queue is the active one (budgets cannot
    change after selection). -/
def bfq_updated_next_req (st : SchedState) (q : BfqQueue) : BfqQueue :=
  match q.nextRq with
  | none => q
  | some r =>
    if st.active.map (fun a => a.qid) = some q.qid then q
    else { q with budget := max q.maxBudget r.len }

/-- bfq_remove_request (with bfq_del_rq_rb inlined): recompute next_rq if
    the removed request was it, unlink from FIFO and sort tree, fix the
    queued counters, and de-busy an emptied non-active queue. -/
def bfq_remove_request (st : SchedState) (q : BfqQueue) (rq : Request) :
    SchedState × BfqQueue :=
  let q :=
    if q.nextRq.map (fun r => r.rid) = some rq.rid then
      bfq_updated_next_req st { q with nextRq := bfq_find_next_rq st q rq }
    else q
  let q := { q with fifo := q.fifo.filter (fun r => r.rid != rq.rid) }
  let q :=
    if rq.sync then { q with queuedSync := q.queuedSync - 1 }
    else { q with queuedAsync := q.queuedAsync - 1 }
  let st := { st with queued := st.queued - 1 }
  let q := { q with sortList := q.sortList.filter (fun r => r.rid != rq.rid) }
  let p :=
    if q.busy ∧ st.active.map (fun a => a.qid) ≠ some q.qid ∧ q.sortList.isEmpty then
      ({ st with busyQueues := st.busyQueues - 1 }, { q with busy := false })
    else (st, q)
  let st := p.1
  let q := p.2
  let q := if rq.meta then { q with metaPending := q.metaPending - 1 } else q
  (st, q)

/-- bfq_dispatch_insert: move rq from the internal lists to the driver
    dispatch list, updating next_rq, the dispatched counter and
    sync_flight. -/
def bfq_dispatch_insert (st : SchedState) (q : BfqQueue) (rq : Request) :
    SchedState × BfqQueue :=
  let q := { q with nextRq := bfq_find_next_rq st q rq }
  let p := bfq_remove_request st q rq
  let st := p.1
  let q := { p.2 with dispatched := p.2.dispatched + 1 }
  let st := { st with driver := st.driver ++ [rq] }
  let st := if q.sync then { st with syncFlight := st.syncFlight + 1 } else st
  (st, q)

/-- The per-round dispatch limit computed at the top of the
    bfq_dispatch_requests loop: quantum, overridden to 1 for the IDLE
    class, overridden to max_budget_async_rq for async queues. -/
def bfq_max_dispatch (st : SchedState) (q : BfqQueue) : Nat :=
  let md := st.bfqQuantum
  let md := if bfq_class_idle q then 1 else md
  if ¬q.sync then st.maxBudgetAsyncRq else md

/-- Post-loop check of __bfq_dispatch_requests: with other busy queues,
    an async queue that exhausted its per-slice request quota or an IDLE
    class queue is expired for budget exhaustion. -/
def __bfq_dispatch_after (st : SchedState) (q : BfqQueue) (dispatched : Nat) :
    Nat × SchedState :=
  if st.busyQueues > 1 ∧
      ((¬q.sync ∧ dispatched ≥ st.maxBudgetAsyncRq) ∨ bfq_class_idle q) then
    (dispatched, bfq_bfqq_expire st q false bfqq_expiration.BFQ_BFQQ_BUDGET_EXHAUSTED)
  else (dispatched, { st with active := some q })

/-- Serving step of the __bfq_dispatch_requests loop body: charge
    sectors to the entity, move the request to the driver dispatch list
    and capture the io-context of the first dispatched request as the
    active context. -/
def __bfq_dispatch_served (st : SchedState) (q : BfqQueue) (rq : Request) :
    SchedState × BfqQueue :=
  let q := bfq_bfqq_served q rq.len
  let p2 := bfq_dispatch_insert st q rq
  let st := p2.1
  let q := p2.2
  let st :=
    if st.activeCic.isNone then { st with activeCic := some rq.cic } else st
  let st := { st with active := some q }
  (st, q)

/-- The do-while body of __bfq_dispatch_requests, recursing on fuel
    (which the wrapper sets above the maximal iteration count): pick the
    FIFO-expired request or next_rq, expire on budget exhaustion keeping
    the request as next_rq, otherwise charge and move it to the driver
    list; stop when the sort tree empties or max_dispatch is reached. -/
def __bfq_dispatch_go (fuel : Nat) (st : SchedState) (q : BfqQueue)
    (maxDispatch dispatched : Nat) : Nat × SchedState :=
  match fuel with
  | 0 => __bfq_dispatch_after st q dispatched
  | fuel + 1 =>
    let p := bfq_next_dispatch st.jiffies q
    let q := p.2
    match p.1 with
    | none => __bfq_dispatch_after st q dispatched
    | some rq =>
      if rq.len > bfq_bfqq_budget_left q then
        let q := { q with nextRq := some rq }
        (dispatched,
         bfq_bfqq_expire st q false bfqq_expiration.BFQ_BFQQ_BUDGET_EXHAUSTED)
      else
        let p2 := __bfq_dispatch_served st q rq
        let st := p2.1
        let q := p2.2
        let dispatched := dispatched + 1
        if q.sortList.isEmpty then __bfq_dispatch_after st q dispatched
        else if dispatched < maxDispatch then
          __bfq_dispatch_go fuel st q maxDispatch dispatched
        else __bfq_dispatch_after st q dispatched

/-- __bfq_dispatch_requests: dispatch some requests of q, moving them to
    the driver dispatch list; returns how many were moved. -/
def __bfq_dispatch_requests (st : SchedState) (q : BfqQueue) (maxDispatch : Nat) :
    Nat × SchedState :=
  __bfq_dispatch_go (maxDispatch + 1) { st with active := some q } q maxDispatch 0

/-- The while loop of bfq_dispatch_requests (non-forced path), recursing
    on fuel: select a queue, stop on the dispatched-limit breaks, return
    0 outright when the active queue has the idle window enabled while
    async requests are in flight, skip async queues while syncs are in
    flight, else drain the queue and accumulate the count. -/
def bfq_dispatch_requests_loop (fuel : Nat) (st : SchedState) (acc : Nat) :
    Nat × SchedState :=
  match fuel with
  | 0 => (acc, st)
  | fuel + 1 =>
    let p := bfq_select_queue st
    let st := p.2
    match p.1 with
    | none => (acc, st)
    | some q =>
      let maxDispatch := bfq_max_dispatch st q
      if q.dispatched ≥ maxDispatch ∧
          (st.busyQueues > 1 ∨ q.dispatched ≥ 4 * maxDispatch) then (acc, st)
      else if q.idleWindow ∧ st.rqInDriverAsync ≠ 0 then (0, st)
      else if st.syncFlight ≠ 0 ∧ ¬q.sync then (acc, st)
      else
        let q := { q with waitRequest := false }
        let p2 := __bfq_dispatch_requests st q maxDispatch
        bfq_dispatch_requests_loop fuel p2.2 (acc + p2.1)

/-- bfq_dispatch_requests, non-forced path (force = 0; the forced path
    delegates to bfq_forced_dispatch, outside the claims considered
    here): returns the dispatch count reported to the block layer. -/
def bfq_dispatch_requests (fuel : Nat) (st : SchedState) : Nat × SchedState :=
  if st.busyQueues = 0 then (0, st)
  else bfq_dispatch_requests_loop fuel st 0

/-- bfq_set_budget_timeout: stamp the slice start, clear budget_new and
    set the budget deadline from the per-direction timeout. -/
def bfq_set_budget_timeout (st : SchedState) (q : BfqQueue) :
    SchedState × BfqQueue :=
  let st := { st with lastBudgetStart := st.nowUs }
  let q := { q with budgetNew := false,
                    budgetTimeout :=
                      st.jiffies + (if q.sync then st.timeoutSync else st.timeoutAsync) }
  (st, q)

/-- bfq_arm_slice_timer: arm the idle slice timer for the active queue
    unless idling is disabled or the producer has exited; the duration is
    slice_idle, reduced to BFQ_MIN_TT for validated seeky producers.
    idlingQid is a ghost recording which queue the timer was armed for. -/
def bfq_arm_slice_timer (st : SchedState) : SchedState :=
  match st.active with
  | none => st
  | some q =>
    if st.sliceIdle = 0 ∨ ¬q.idleWindow then st
    else
      match st.activeCic with
      | none => st
      | some cic =>
        if cic.nrTasks = 0 then st
        else
          let q := { q with waitRequest := true }
          let sl := st.sliceIdle
          let sl :=
            if bfq_sample_valid cic.seekSamples ∧ CIC_SEEKY cic then
              min sl (msecs_to_jiffies BFQ_MIN_TT)
            else sl
          { st with active := some q,
                    lastIdlingStart := st.nowUs,
                    timerExpires := some (st.jiffies + sl),
                    idlingQid := some q.qid }

/-- bfq_update_hw_tag: track the max in-driver count and, every
    BFQ_HW_QUEUE_SAMPLES valid samples, set hw_tag from it. -/
def bfq_update_hw_tag (st : SchedState) : SchedState :=
  let st := { st with maxRqInDriver := max st.maxRqInDriver (rq_in_driver st) }
  if rq_in_driver st + st.queued < BFQ_HW_QUEUE_THRESHOLD then st
  else
    let old := st.hwTagSamples
    let st := { st with hwTagSamples := old + 1 }
    if old < BFQ_HW_QUEUE_SAMPLES then st
    else
      { st with hwTag := st.maxRqInDriver > BFQ_HW_QUEUE_THRESHOLD,
                maxRqInDriver := 0, hwTagSamples := 0 }

/-- bfq_completed_request: account the completion; on the active queue,
    stamp the budget timeout at the first completion of the slice, expire
    on budget timeout, or arm the idle slice timer when the driver and
    sort tree have drained for a sync queue. -/
def bfq_completed_request (st : SchedState) (rq : Request) : SchedState :=
  let st := bfq_update_hw_tag st
  let st :=
    if rq.sync then { st with rqInDriverSync := st.rqInDriverSync - 1 }
    else { st with rqInDriverAsync := st.rqInDriverAsync - 1 }
  match st.active with
  | some q =>
    if q.qid = rq.qid then
      let q := { q with dispatched := q.dispatched - 1 }
      let st := if q.sync then { st with syncFlight := st.syncFlight - 1 } else st
      let p := if q.budgetNew then bfq_set_budget_timeout st q else (st, q)
      let st := p.1
      let q := p.2
      let st := { st with active := some q }
      if bfq_bfqq_budget_timeout st.jiffies q then
        bfq_bfqq_expire st q false bfqq_expiration.BFQ_BFQQ_BUDGET_TIMEOUT
      else if rq.sync ∧ rq_in_driver st = 0 ∧ q.sortList.isEmpty then
        bfq_arm_slice_timer st
      else st
    else
      let bsync :=
        match st.busy.find? (fun b => b.qid == rq.qid) with
        | some b => b.sync
        | none => false
      let st :=
        { st with busy := st.busy.map (fun b =>
            if b.qid = rq.qid then { b with dispatched := b.dispatched - 1 } else b) }
      if bsync then { st with syncFlight := st.syncFlight - 1 } else st
  | none =>
    let bsync :=
      match st.busy.find? (fun b => b.qid == rq.qid) with
      | some b => b.sync
      | none => false
    let st :=
      { st with busy := st.busy.map (fun b =>
          if b.qid = rq.qid then { b with dispatched := b.dispatched - 1 } else b) }
    if bsync then { st with syncFlight := st.syncFlight - 1 } else st

/-- bfq_idle_slice_timer: the timer has fired (so it is no longer
    pending); re-read the active queue under the lock and no-op when it
    is null, otherwise expire it with TOO_IDLE, or BUDGET_TIMEOUT when
    the budget timed out while idling, and schedule a dispatch (the kick
    work item changes no scheduler state). -/
def bfq_idle_slice_timer (st : SchedState) : SchedState :=
  let st := { st with timerExpires := none }
  match st.active with
  | some q =>
    let reason :=
      if bfq_bfqq_budget_timeout st.jiffies q then
        bfqq_expiration.BFQ_BFQQ_BUDGET_TIMEOUT
      else bfqq_expiration.BFQ_BFQQ_TOO_IDLE
    bfq_bfqq_expire st q true reason
  | none => st

/-- A producer context with one live task and no seek history. -/
def cic1 : Cic := { seekSamples := 0, seekMean := 0, nrTasks := 1 }

/-- A zeroed queue used as the base of the concrete examples. -/
def baseQueue : BfqQueue := {
  qid := 0, sortList := [], fifo := [], nextRq := none, budget := 0, service := 0,
  maxBudget := 0, budgetsAssigned := 0, budgetTimeout := 0, dispatched := 0,
  queuedSync := 0, queuedAsync := 0, metaPending := 0, sync := false, busy := false,
  idleWindow := false, budgetNew := false, waitRequest := false, fifoExpire := false,
  mustAlloc := false, ioprioClass := IoprioClass.BE }

/-- A scheduler state with the compile-time default tunables and no work. -/
def baseState : SchedState := {
  active := none, busy := [], busyQueues := 0, queued := 0, driver := [],
  rqInDriverSync := 0, rqInDriverAsync := 0, syncFlight := 0, activeCic := none,
  lastPosition := 0, jiffies := 1000, nowUs := 0, lastBudgetStart := 0,
  lastIdlingStart := 0, timerExpires := none, idlingQid := none, expiredTrace := [],
  peakRate := 0, peakRateSamples := 0, maxRqInDriver := 0, hwTagSamples := 0,
  hwTag := false, bfqQuantum := bfq_quantum, fifoExpireSync := bfq_fifo_expire_sync,
  fifoExpireAsync := bfq_fifo_expire_async, backMax := bfq_back_max,
  backPenalty := bfq_back_penalty, sliceIdle := bfq_slice_idle,
  maxBudgetG := bfq_max_budget_default, userMaxBudget := 0,
  maxBudgetAsyncRq := bfq_max_budget_async_rq_default, timeoutSync := bfq_timeout_sync,
  timeoutAsync := bfq_timeout_async, desktop := true }

/-- Concrete async request of queue 1 for the dispatch-count scenario. -/
def rqC2a : Request := { rid := 1, qid := 1, pos := 100, len := 8, sync := false,
                         meta := false, fifoTime := 1100, cic := cic1 }

/-- Concrete sync request of queue 2 for the dispatch-count scenario. -/
def rqC2b : Request := { rid := 2, qid := 2, pos := 200, len := 8, sync := true,
                         meta := false, fifoTime := 1100, cic := cic1 }

/-- Async busy queue holding one request, currently active. -/
def qC2a : BfqQueue := { baseQueue with
  qid := 1, sortList := [rqC2a], fifo := [rqC2a], nextRq := some rqC2a,
  budget := 100, maxBudget := 100, queuedAsync := 1, busy := true,
  budgetNew := true }

/-- Sync busy queue with the idle window enabled, waiting its turn. -/
def qC2b : BfqQueue := { baseQueue with
  qid := 2, sortList := [rqC2b], fifo := [rqC2b], nextRq := some rqC2b,
  budget := 100, maxBudget := 100, queuedSync := 1, sync := true, busy := true,
  idleWindow := true, budgetNew := true }

/-- Dispatch scenario: queue 1 active, queue 2 busy next, one async
    request already in the driver. -/
def stC2 : SchedState := { baseState with
  active := some qC2a, busy := [qC2b], busyQueues := 2, queued := 2,
  rqInDriverAsync := 1 }

/-- Sync queue that received 100 sectors of service over the last slice
    against a 4000 sector budget. -/
def qC1 : BfqQueue := { baseQueue with
  qid := 3, sync := true, budget := 4000, service := 100, maxBudget := 4000 }

/-- Slice of 10000 us for queue 3: bandwidth 100 sectors per 10 ms. -/
def stC1 : SchedState := { baseState with active := some qC1, nowUs := 10000 }

/-- Async queue of the IDLE I/O priority class. -/
def qC7 : BfqQueue := { baseQueue with
  qid := 4, sync := false, ioprioClass := IoprioClass.IDLE }

/-- Active queue 2 while the idle timer had been armed for queue 1. -/
def qC9 : BfqQueue := { baseQueue with
  qid := 2, sync := true, budgetNew := true, sortList := [rqC2b],
  nextRq := some rqC2b, budget := 100 }

/-- Timer-race scenario: the queue that armed the timer (queue 1) is no
    longer the active one when the timer fires. -/
def stC9 : SchedState := { baseState with
  active := some qC9, idlingQid := some 1, busyQueues := 1 }

/-! Helper lemmas: which state fields each operation can touch. -/

theorem upr_state (st : SchedState) (q : BfqQueue) (c : Bool) :
    ∃ pr ps mb, (bfq_update_peak_rate st q c).2 =
      { st with peakRate := pr, peakRateSamples := ps, maxBudgetG := mb } := by
  unfold bfq_update_peak_rate
  dsimp only
  repeat' split
  all_goals exact ⟨_, _, _, rfl⟩

theorem upr_driver (st : SchedState) (q : BfqQueue) (c : Bool) :
    ((bfq_update_peak_rate st q c).2).driver = st.driver := by
  obtain ⟨pr, ps, mb, h⟩ := upr_state st q c
  rw [h]

theorem upr_trace (st : SchedState) (q : BfqQueue) (c : Bool) :
    ((bfq_update_peak_rate st q c).2).expiredTrace = st.expiredTrace := by
  obtain ⟨pr, ps, mb, h⟩ := upr_state st q c
  rw [h]

theorem upr_busy (st : SchedState) (q : BfqQueue) (c : Bool) :
    ((bfq_update_peak_rate st q c).2).busy = st.busy := by
  obtain ⟨pr, ps, mb, h⟩ := upr_state st q c
  rw [h]

theorem upr_active (st : SchedState) (q : BfqQueue) (c : Bool) :
    ((bfq_update_peak_rate st q c).2).active = st.active := by
  obtain ⟨pr, ps, mb, h⟩ := upr_state st q c
  rw [h]

theorem upr_budgetNew_false (st : SchedState) (q : BfqQueue) (c : Bool)
    (h : q.budgetNew = true) : bfq_update_peak_rate st q c = (false, st) := by
  unfold bfq_update_peak_rate
  simp [h]

theorem recalc_state (st : SchedState) (q : BfqQueue) (r : bfqq_expiration) :
    ∃ mb bg, __bfq_bfqq_recalc_budget st q r =
      { q with maxBudget := mb, budget := bg } := by
  unfold __bfq_bfqq_recalc_budget
  dsimp only
  repeat' split
  all_goals exact ⟨_, _, rfl⟩

theorem recalc_qid (st : SchedState) (q : BfqQueue) (r : bfqq_expiration) :
    (__bfq_bfqq_recalc_budget st q r).qid = q.qid := by
  obtain ⟨mb, bg, h⟩ := recalc_state st q r
  rw [h]

theorem recalc_sortList (st : SchedState) (q : BfqQueue) (r : bfqq_expiration) :
    (__bfq_bfqq_recalc_budget st q r).sortList = q.sortList := by
  obtain ⟨mb, bg, h⟩ := recalc_state st q r
  rw [h]

theorem recalc_fifo (st : SchedState) (q : BfqQueue) (r : bfqq_expiration) :
    (__bfq_bfqq_recalc_budget st q r).fifo = q.fifo := by
  obtain ⟨mb, bg, h⟩ := recalc_state st q r
  rw [h]

theorem recalc_nextRq (st : SchedState) (q : BfqQueue) (r : bfqq_expiration) :
    (__bfq_bfqq_recalc_budget st q r).nextRq = q.nextRq := by
  obtain ⟨mb, bg, h⟩ := recalc_state st q r
  rw [h]

theorem recalc_fifoExpire (st : SchedState) (q : BfqQueue) (r : bfqq_expiration) :
    (__bfq_bfqq_recalc_budget st q r).fifoExpire = q.fifoExpire := by
  obtain ⟨mb, bg, h⟩ := recalc_state st q r
  rw [h]

theorem charge_fields (q : BfqQueue) :
    (bfq_bfqq_charge_full_budget q).qid = q.qid
    ∧ (bfq_bfqq_charge_full_budget q).sortList = q.sortList
    ∧ (bfq_bfqq_charge_full_budget q).fifo = q.fifo
    ∧ (bfq_bfqq_charge_full_budget q).nextRq = q.nextRq
    ∧ (bfq_bfqq_charge_full_budget q).sync = q.sync := by
  unfold bfq_bfqq_charge_full_budget
  exact ⟨rfl, rfl, rfl, rfl, rfl⟩

theorem check_fifo_state (j : Nat) (q : BfqQueue) :
    ∃ fe, (bfq_check_fifo j q).2 = { q with fifoExpire := fe } := by
  unfold bfq_check_fifo
  dsimp only
  repeat' split
  all_goals exact ⟨_, rfl⟩

theorem next_dispatch_state (j : Nat) (q : BfqQueue) :
    ∃ fe, (bfq_next_dispatch j q).2 = { q with fifoExpire := fe } := by
  obtain ⟨fe, h⟩ := check_fifo_state j q
  refine ⟨fe, ?_⟩
  unfold bfq_next_dispatch
  cases h1 : (bfq_check_fifo j q).1 <;> simp only [h1, h]

theorem reset_active_driver (st : SchedState) (q : BfqQueue) :
    (__bfq_bfqq_expire st q).driver = st.driver := by
  unfold __bfq_bfqq_expire
  split <;> rfl

theorem reset_active_trace (st : SchedState) (q : BfqQueue) :
    (__bfq_bfqq_expire st q).expiredTrace = st.expiredTrace := by
  unfold __bfq_bfqq_expire
  split <;> rfl

theorem expire_trace (st : SchedState) (q : BfqQueue) (c : Bool)
    (reason : bfqq_expiration) :
    (bfq_bfqq_expire st q c reason).expiredTrace =
      st.expiredTrace ++ [(q.qid,
        if (bfq_update_peak_rate st q c).1 ∧
            reason = bfqq_expiration.BFQ_BFQQ_TOO_IDLE then
          bfqq_expiration.BFQ_BFQQ_BUDGET_TIMEOUT
        else reason)] := by
  unfold bfq_bfqq_expire
  rw [reset_active_trace]
  simp only [upr_trace]
  split
  · rw [recalc_qid]
    split
    · rw [(charge_fields q).1]
    · rfl
  · rw [recalc_qid]
    split
    · rw [(charge_fields q).1]
    · rfl

theorem expire_driver (st : SchedState) (q : BfqQueue) (c : Bool)
    (reason : bfqq_expiration) :
    (bfq_bfqq_expire st q c reason).driver = st.driver := by
  unfold bfq_bfqq_expire
  rw [reset_active_driver]
  simp only [upr_driver]

theorem get_next_queue_driver (st : SchedState) :
    ((bfq_get_next_queue st).2).driver = st.driver := by
  unfold bfq_get_next_queue
  split <;> rfl

theorem get_next_queue_trace (st : SchedState) :
    ((bfq_get_next_queue st).2).expiredTrace = st.expiredTrace := by
  unfold bfq_get_next_queue
  split <;> rfl

theorem set_active_driver (st : SchedState) :
    ((bfq_set_active_queue st).2).driver = st.driver := by
  have hd := get_next_queue_driver st
  rcases hgn : bfq_get_next_queue st with ⟨qo, st2⟩
  rw [hgn] at hd
  unfold bfq_set_active_queue __bfq_set_active_queue
  rw [hgn]
  cases qo <;> simpa using hd

theorem set_active_trace (st : SchedState) :
    ((bfq_set_active_queue st).2).expiredTrace = st.expiredTrace := by
  have hd := get_next_queue_trace st
  rcases hgn : bfq_get_next_queue st with ⟨qo, st2⟩
  rw [hgn] at hd
  unfold bfq_set_active_queue __bfq_set_active_queue
  rw [hgn]
  cases qo <;> simpa using hd

theorem select_queue_driver (st : SchedState) :
    ((bfq_select_queue st).2).driver = st.driver := by
  unfold bfq_select_queue
  repeat' split
  all_goals simp only [set_active_driver, expire_driver]

theorem remove_state (st : SchedState) (q : BfqQueue) (rq : Request) :
    ∃ qd bq, (bfq_remove_request st q rq).1 =
      { st with queued := qd, busyQueues := bq } := by
  unfold bfq_remove_request
  dsimp only
  repeat' split
  all_goals exact ⟨_, _, rfl⟩

theorem insert_driver (st : SchedState) (q : BfqQueue) (rq : Request) :
    ((bfq_dispatch_insert st q rq).1).driver = st.driver ++ [rq] := by
  unfold bfq_dispatch_insert
  dsimp only
  obtain ⟨qd, bq, h⟩ := remove_state st { q with nextRq := bfq_find_next_rq st q rq } rq
  rw [h]
  split <;> rfl

theorem insert_trace (st : SchedState) (q : BfqQueue) (rq : Request) :
    ((bfq_dispatch_insert st q rq).1).expiredTrace = st.expiredTrace := by
  unfold bfq_dispatch_insert
  dsimp only
  obtain ⟨qd, bq, h⟩ := remove_state st { q with nextRq := bfq_find_next_rq st q rq } rq
  rw [h]
  split <;> rfl

theorem after_fst (st : SchedState) (q : BfqQueue) (d : Nat) :
    (__bfq_dispatch_after st q d).1 = d := by
  unfold __bfq_dispatch_after
  split <;> rfl

theorem after_driver (st : SchedState) (q : BfqQueue) (d : Nat) :
    ((__bfq_dispatch_after st q d).2).driver = st.driver := by
  unfold __bfq_dispatch_after
  split
  · rw [expire_driver]
  · rfl

theorem served_driver (st : SchedState) (q : BfqQueue) (rq : Request) :
    ((__bfq_dispatch_served st q rq).1).driver = st.driver ++ [rq] := by
  unfold __bfq_dispatch_served
  dsimp only
  have hins := insert_driver st (bfq_bfqq_served q rq.len) rq
  split <;> simp [hins]

theorem go_driver (fuel : Nat) : ∀ (st : SchedState) (q : BfqQueue) (md d : Nat),
    ((__bfq_dispatch_go fuel st q md d).2).driver.length + d =
      (__bfq_dispatch_go fuel st q md d).1 + st.driver.length := by
  induction fuel with
  | zero =>
    intro st q md d
    unfold __bfq_dispatch_go
    rw [after_fst, after_driver]
    omega
  | succ n ih =>
    intro st q md d
    unfold __bfq_dispatch_go
    dsimp only
    rcases hnd : bfq_next_dispatch st.jiffies q with ⟨rqo, q1⟩
    cases rqo with
    | none =>
      rw [after_fst, after_driver]
      omega
    | some rq =>
      dsimp only
      split
      · dsimp only
        rw [expire_driver]
        omega
      · rcases hsv : __bfq_dispatch_served st q1 rq with ⟨st2, q2⟩
        have hd2 : st2.driver = st.driver ++ [rq] := by
          have := served_driver st q1 rq
          rw [hsv] at this
          exact this
        dsimp only
        split
        · rw [after_fst, after_driver, hd2]
          simp
          omega
        · split
          · have := ih st2 q2 md (d + 1)
            rw [hd2] at this
            simp at this
            omega
          · rw [after_fst, after_driver, hd2]
            simp
            omega

theorem loop_count (fuel : Nat) : ∀ (st : SchedState) (acc : Nat),
    (bfq_dispatch_requests_loop fuel st acc).1 + st.driver.length =
      acc + ((bfq_dispatch_requests_loop fuel st acc).2).driver.length
    ∨ (bfq_dispatch_requests_loop fuel st acc).1 = 0 := by
  induction fuel with
  | zero =>
    intro st acc
    left
    unfold bfq_dispatch_requests_loop
    dsimp only
  | succ n ih =>
    intro st acc
    unfold bfq_dispatch_requests_loop
    dsimp only
    have hsel := select_queue_driver st
    rcases hq : bfq_select_queue st with ⟨qo, st1⟩
    rw [hq] at hsel
    cases qo with
    | none =>
      left
      dsimp only
      rw [hsel]
    | some q =>
      dsimp only
      split
      · left
        rw [hsel]
      · split
        · right
          rfl
        · split
          · left
            rw [hsel]
          · rcases hin : __bfq_dispatch_requests st1 { q with waitRequest := false }
                (bfq_max_dispatch st1 q) with ⟨n2, st2⟩
            dsimp only
            have hgo : st2.driver.length = n2 + st1.driver.length := by
              have := go_driver (bfq_max_dispatch st1 q + 1)
                { st1 with active := some { q with waitRequest := false } }
                { q with waitRequest := false } (bfq_max_dispatch st1 q) 0
              unfold __bfq_dispatch_requests at hin
              rw [hin] at this
              simpa using this
            rcases ih st2 (acc + n2) with hl | hr
            · left
              rw [hgo, hsel] at hl
              omega
            · right
              exact hr

/-- C2: the claim that bfq_dispatch_requests always returns exactly the
    number of requests moved to the driver dispatch list fails: in this
    concrete state one request is moved in the first round, then the
    newly selected queue has the idle window enabled while an async
    request is in flight, and the function returns 0, not 1. -/
theorem C2_counterexample :
    (bfq_dispatch_requests 10 stC2).1 = 0
    ∧ ((bfq_dispatch_requests 10 stC2).2).driver.length =
        stC2.driver.length + 1 := by
  constructor
  · rfl
  · rfl

/-- C2 (amended): a non-forced bfq_dispatch_requests invocation returns
    either exactly the number of requests moved to the driver dispatch
    list during the invocation, or 0 — the latter whenever the loop is
    cut short by the guard on an active queue with the idle window
    enabled while async requests are in flight, which discards the count
    accumulated so far. -/
theorem C2_dispatch_count (fuel : Nat) (st : SchedState) :
    (bfq_dispatch_requests fuel st).1 + st.driver.length =
      ((bfq_dispatch_requests fuel st).2).driver.length
    ∨ (bfq_dispatch_requests fuel st).1 = 0 := by
  unfold bfq_dispatch_requests
  split
  · right
    rfl
  · rcases loop_count fuel st 0 with hl | hr
    · left
      omega
    · right
      exact hr

/-- C1: the claim (and the comment in the source above the return) says a
    sync queue with at least one completed request is slow exactly when
    expected = bw * sync_timeout_ms is NOT greater than entity.budget.
    The code returns expected > budget as the slow flag, the exact
    opposite: at this concrete slice (100 sectors in 10000 us, timeout
    125 ms, budget 4000) expected = 1249 ≤ 4000, so the claim classifies
    the queue slow, yet the code returns not-slow and a TOO_IDLE
    expiration is recorded as TOO_IDLE instead of being converted to
    BUDGET_TIMEOUT; conversely a fast slice (4000 sectors in 1000 us,
    expected = 500000 > 4000) is classified slow. -/
theorem C1_slow_inverted :
    (bfq_update_peak_rate stC1 qC1 false).1 = false
    ∧ qC1.service * 2 ^ BFQ_RATE_SHIFT / 10000 * 1000 *
        jiffies_to_msecs stC1.timeoutSync / 2 ^ BFQ_RATE_SHIFT ≤ qC1.budget
    ∧ (bfq_bfqq_expire stC1 qC1 false
        bfqq_expiration.BFQ_BFQQ_TOO_IDLE).expiredTrace =
        [(3, bfqq_expiration.BFQ_BFQQ_TOO_IDLE)]
    ∧ (bfq_update_peak_rate { stC1 with nowUs := 1000 }
        { qC1 with service := 4000 } false).1 = true := by
  refine ⟨rfl, by decide, rfl, rfl⟩

/-- C7: the claim that an IDLE-class queue always gets max_dispatch = 1
    fails for an async IDLE-class queue (the async_idle_bfqq): the async
    override is applied after the IDLE-class one, so such a queue gets
    max_budget_async_rq (4 by default), not 1. -/
theorem C7_counterexample :
    qC7.ioprioClass = IoprioClass.IDLE
    ∧ qC7.sync = false
    ∧ bfq_max_dispatch baseState qC7 = 4
    ∧ bfq_max_dispatch baseState qC7 ≠ 1 := by
  refine ⟨rfl, rfl, rfl, by decide⟩

/-- C7 (amended): the per-round dispatch limit is bfq_quantum for a sync
    non-IDLE-class queue, 1 for a sync IDLE-class queue, and
    max_budget_async_rq for every async queue, including async IDLE-class
    ones (the async override is applied last). -/
theorem C7_max_dispatch (st : SchedState) (q : BfqQueue) :
    (q.sync = true → bfq_class_idle q = false →
      bfq_max_dispatch st q = st.bfqQuantum)
    ∧ (q.sync = true → bfq_class_idle q = true → bfq_max_dispatch st q = 1)
    ∧ (q.sync = false → bfq_max_dispatch st q = st.maxBudgetAsyncRq) := by
  unfold bfq_max_dispatch
  refine ⟨?_, ?_, ?_⟩
  · intro hs hc
    simp [hs, hc]
  · intro hs hc
    simp [hs, hc]
  · intro hs
    simp [hs]

/-- C7 witness: the amended characterization at concrete queues. -/
theorem C7_max_dispatch_witness :
    bfq_max_dispatch baseState { baseQueue with sync := true } =
        baseState.bfqQuantum
    ∧ bfq_max_dispatch baseState
        { baseQueue with sync := true, ioprioClass := IoprioClass.IDLE } = 1
    ∧ bfq_max_dispatch baseState baseQueue = baseState.maxBudgetAsyncRq := by
  refine ⟨?_, ?_, ?_⟩
  · exact (C7_max_dispatch baseState { baseQueue with sync := true }).1 rfl rfl
  · exact (C7_max_dispatch baseState
      { baseQueue with sync := true, ioprioClass := IoprioClass.IDLE }).2.1 rfl rfl
  · exact (C7_max_dispatch baseState baseQueue).2.2 rfl

theorem too_idle_arith (mb G a u : Nat) :
    (if 194 ≤ a ∧ u = 0 ∧ (if mb > G / 2 + 128 then mb - 128 else G / 2) > G then G
     else (if mb > G / 2 + 128 then mb - 128 else G / 2)) =
    (if 194 ≤ a ∧ u = 0 then min (max (mb - 128) (G / 2)) G
     else max (mb - 128) (G / 2)) := by
  rw [Nat.max_def, Nat.min_def]
  split_ifs <;> omega

theorem exhausted_arith (mb G a u : Nat) :
    (if 194 ≤ a ∧ u = 0 ∧ min (mb + 1024) G > G then G else min (mb + 1024) G) =
      min (mb + 1024) G := by
  rw [Nat.min_def]
  split_ifs <;> omega

/-- C3: on expiration of a sync leaf, TOO_IDLE yields
    max(max_budget - 128, global_max / 2) then the conditional clamp to
    global_max (budgets_assigned at least 194 and no user-pinned max);
    BUDGET_EXHAUSTED yields min(max_budget + 8*128, global_max) (on
    which the clamp is a no-op); NO_MORE_REQUESTS leaves max_budget
    unchanged; an async leaf always gets global_max. -/
theorem C3_budget_feedback (st : SchedState) (q : BfqQueue) :
    (q.sync = true →
      (__bfq_bfqq_recalc_budget st q bfqq_expiration.BFQ_BFQQ_TOO_IDLE).maxBudget =
        (if 194 ≤ q.budgetsAssigned ∧ st.userMaxBudget = 0 then
           min (max (q.maxBudget - BFQ_BUDGET_STEP) (st.maxBudgetG / 2)) st.maxBudgetG
         else max (q.maxBudget - BFQ_BUDGET_STEP) (st.maxBudgetG / 2)))
    ∧ (q.sync = true →
      (__bfq_bfqq_recalc_budget st q
          bfqq_expiration.BFQ_BFQQ_BUDGET_EXHAUSTED).maxBudget =
        min (q.maxBudget + 8 * BFQ_BUDGET_STEP) st.maxBudgetG)
    ∧ (q.sync = true →
      (__bfq_bfqq_recalc_budget st q
          bfqq_expiration.BFQ_BFQQ_NO_MORE_REQUESTS).maxBudget = q.maxBudget)
    ∧ (q.sync = false → ∀ r,
      (__bfq_bfqq_recalc_budget st q r).maxBudget = st.maxBudgetG) := by
  refine ⟨?_, ?_, ?_, ?_⟩
  · intro hs
    unfold __bfq_bfqq_recalc_budget bfq_min_budget BFQ_BUDGET_STEP
    simp only [hs]
    cases hnx : q.nextRq <;>
      simpa [hnx] using
        too_idle_arith q.maxBudget st.maxBudgetG q.budgetsAssigned st.userMaxBudget
  · intro hs
    unfold __bfq_bfqq_recalc_budget BFQ_BUDGET_STEP
    simp only [hs]
    cases hnx : q.nextRq <;>
      simpa [hnx] using
        exhausted_arith q.maxBudget st.maxBudgetG q.budgetsAssigned st.userMaxBudget
  · intro hs
    unfold __bfq_bfqq_recalc_budget
    simp [hs]
  · intro hs
    intro r
    unfold __bfq_bfqq_recalc_budget
    have hmin := Nat.min_le_right (q.maxBudget + 1024) st.maxBudgetG
    cases hnx : q.nextRq <;> simp [hs, hnx]

/-- C3 witness: the feedback characterization at concrete inputs (a sync
    queue under each reason, and an async queue). -/
theorem C3_budget_feedback_witness :
    (__bfq_bfqq_recalc_budget baseState qC1
        bfqq_expiration.BFQ_BFQQ_TOO_IDLE).maxBudget =
      max (qC1.maxBudget - BFQ_BUDGET_STEP) (baseState.maxBudgetG / 2)
    ∧ (__bfq_bfqq_recalc_budget baseState qC1
        bfqq_expiration.BFQ_BFQQ_BUDGET_EXHAUSTED).maxBudget =
      min (qC1.maxBudget + 8 * BFQ_BUDGET_STEP) baseState.maxBudgetG
    ∧ (__bfq_bfqq_recalc_budget baseState qC1
        bfqq_expiration.BFQ_BFQQ_NO_MORE_REQUESTS).maxBudget = qC1.maxBudget
    ∧ (__bfq_bfqq_recalc_budget baseState qC2a
        bfqq_expiration.BFQ_BFQQ_TOO_IDLE).maxBudget = baseState.maxBudgetG := by
  refine ⟨?_, ?_, ?_, ?_⟩
  · have h := (C3_budget_feedback baseState qC1).1 rfl
    rw [h]
    decide
  · exact (C3_budget_feedback baseState qC1).2.1 rfl
  · exact (C3_budget_feedback baseState qC1).2.2.1 rfl
  · exact (C3_budget_feedback baseState qC2a).2.2.2 rfl
        bfqq_expiration.BFQ_BFQQ_TOO_IDLE

/-- C4: with candidates of equal sync and meta flags (the preliminary
    preferences do not fire) and realistic magnitudes, the proximity
    choice behaves as claimed: a backward distance of exactly
    back_max = 2 * bfq_back_max sectors is allowed at the penalized cost
    (L - s) * back_penalty, one more sector wraps; if neither candidate
    wraps the smaller penalized distance wins with ties to the larger
    sector; if exactly one wraps the other wins; if both wrap the
    smaller sector wins. -/
theorem C4_choose_req (L kb pen s d1 d2 : Nat) (r1 r2 : Request)
    (hL : L < 2 ^ 48) (hkb0 : 0 < kb) (hkb : kb < 2 ^ 31) (hpen : pen ≤ 2 ^ 16)
    (hs : s < 2 ^ 48)
    (hrid : r1.rid ≠ r2.rid) (hsync : r1.sync = r2.sync)
    (hmeta : r1.meta = r2.meta) :
    (s ≤ L → L - s = kb * 2 →
      bfq_rq_dist L (kb * 2) pen s = some ((L - s) * pen))
    ∧ (L - s = kb * 2 + 1 → bfq_rq_dist L (kb * 2) pen s = none)
    ∧ (bfq_rq_dist L (kb * 2) pen r1.pos = some d1 →
       bfq_rq_dist L (kb * 2) pen r2.pos = some d2 →
         (d1 < d2 → bfq_choose_req L kb pen (some r1) (some r2) = some r1)
         ∧ (d2 < d1 → bfq_choose_req L kb pen (some r1) (some r2) = some r2)
         ∧ (d1 = d2 → r2.pos < r1.pos →
             bfq_choose_req L kb pen (some r1) (some r2) = some r1)
         ∧ (d1 = d2 → r1.pos < r2.pos →
             bfq_choose_req L kb pen (some r1) (some r2) = some r2))
    ∧ (bfq_rq_dist L (kb * 2) pen r1.pos = some d1 →
       bfq_rq_dist L (kb * 2) pen r2.pos = none →
       bfq_choose_req L kb pen (some r1) (some r2) = some r1)
    ∧ (bfq_rq_dist L (kb * 2) pen r1.pos = none →
       bfq_rq_dist L (kb * 2) pen r2.pos = some d2 →
       bfq_choose_req L kb pen (some r1) (some r2) = some r2)
    ∧ (bfq_rq_dist L (kb * 2) pen r1.pos = none →
       bfq_rq_dist L (kb * 2) pen r2.pos = none →
         (r1.pos ≤ r2.pos → bfq_choose_req L kb pen (some r1) (some r2) = some r1)
         ∧ (r2.pos < r1.pos →
             bfq_choose_req L kb pen (some r1) (some r2) = some r2)) := by
  have hbm : (kb % W32) * 2 % W32 = kb * 2 := by
    unfold W32
    rw [Nat.mod_eq_of_lt (by omega), Nat.mod_eq_of_lt (by omega)]
  have hmain : bfq_choose_req L kb pen (some r1) (some r2) =
      (match bfq_rq_dist L (kb * 2) pen r1.pos,
             bfq_rq_dist L (kb * 2) pen r2.pos with
       | some e1, some e2 =>
         if e1 < e2 then some r1
         else if e2 < e1 then some r2
         else if r1.pos ≥ r2.pos then some r1 else some r2
       | some _, none => some r1
       | none, some _ => some r2
       | none, none => if r1.pos ≤ r2.pos then some r1 else some r2) := by
    unfold bfq_choose_req
    dsimp only
    rw [hbm]
    have h1 : ¬(r1.sync = true ∧ ¬r2.sync = true) := by
      rw [hsync]
      simp
    have h2 : ¬(r2.sync = true ∧ ¬r1.sync = true) := by
      rw [hsync]
      simp
    have h3 : ¬(r1.meta = true ∧ ¬r2.meta = true) := by
      rw [hmeta]
      simp
    have h4 : ¬(r2.meta = true ∧ ¬r1.meta = true) := by
      rw [hmeta]
      simp
    rw [if_neg hrid, if_neg h1, if_neg h2, if_neg h3, if_neg h4]
  refine ⟨?_, ?_, ?_, ?_, ?_, ?_⟩
  · intro hsl hdist
    unfold bfq_rq_dist
    rw [if_neg (by omega)]
    have hm1 : (s + kb * 2) % W64 = s + kb * 2 := by
      unfold W64
      exact Nat.mod_eq_of_lt (by omega)
    rw [if_pos (by rw [hm1]; omega)]
    have hm2 : (L - s) * pen % W64 = (L - s) * pen := by
      unfold W64
      refine Nat.mod_eq_of_lt ?_
      rw [hdist]
      have hmul : kb * 2 * pen ≤ 2 ^ 31 * 2 * 2 ^ 16 :=
        Nat.mul_le_mul (Nat.mul_le_mul (Nat.le_of_lt hkb) (Nat.le_refl 2)) hpen
      omega
    rw [hm2]
  · intro hdist
    unfold bfq_rq_dist
    rw [if_neg (by omega)]
    have hm1 : (s + kb * 2) % W64 = s + kb * 2 := by
      unfold W64
      exact Nat.mod_eq_of_lt (by omega)
    rw [if_neg (by rw [hm1]; omega)]
  · intro hd1 hd2
    rw [hmain, hd1, hd2]
    dsimp only
    refine ⟨?_, ?_, ?_, ?_⟩
    · intro h
      rw [if_pos h]
    · intro h
      rw [if_neg (by omega), if_pos h]
    · intro he h
      rw [if_neg (by omega), if_neg (by omega), if_pos (by omega)]
    · intro he h
      rw [if_neg (by omega), if_neg (by omega), if_neg (by omega)]
  · intro hd1 hd2
    rw [hmain, hd1, hd2]
  · intro hd1 hd2
    rw [hmain, hd1, hd2]
  · intro hd1 hd2
    rw [hmain, hd1, hd2]
    dsimp only
    constructor
    · intro h
      rw [if_pos h]
    · intro h
      rw [if_neg (by omega)]

/-- Request 67232 sectors behind the head used in the proximity witness. -/
def rqC4a : Request := { rid := 10, qid := 1, pos := 100010, len := 8,
                         sync := false, meta := false, fifoTime := 0, cic := cic1 }

/-- Second candidate request for the proximity witness. -/
def rqC4b : Request := { rid := 11, qid := 1, pos := 100020, len := 8,
                         sync := false, meta := false, fifoTime := 0, cic := cic1 }

/-- C4 witness: at head position 100000 with the default tunables
    (back_max 16384 KiB = 32768 sectors, penalty 2), the boundary and
    choice behaviors at concrete requests. -/
theorem C4_choose_req_witness :
    bfq_rq_dist 100000 (16384 * 2) 2 67232 = some ((100000 - 67232) * 2)
    ∧ bfq_rq_dist 100000 (16384 * 2) 2 67231 = none
    ∧ bfq_choose_req 100000 16384 2 (some rqC4a) (some rqC4b) = some rqC4a := by
  have h := C4_choose_req 100000 16384 2 67232 10 20 rqC4a rqC4b
    (by decide) (by decide) (by decide) (by decide) (by decide)
    (by decide) (by decide) (by decide)
  refine ⟨h.1 (by decide) (by decide), ?_, ?_⟩
  · have h2 := C4_choose_req 100000 16384 2 67231 10 20 rqC4a rqC4b
      (by decide) (by decide) (by decide) (by decide) (by decide)
      (by decide) (by decide) (by decide)
    exact h2.2.1 (by decide)
  · exact (h.2.2.1 (by decide) (by decide)).1 (by decide)

/-- C6: the FIFO check is sticky per slice: any call leaves the
    fifo_expire flag set, a call with the flag set returns null and
    changes nothing, the flag is cleared (only) when a queue is made
    active, and none of the dispatch-path operations on the queue
    (serving, moving a request to the driver, budget recalculation,
    full-budget charging) clear it — so after the first FIFO check of a
    slice every later check in the same slice returns null, and at most
    one request per slice is served out of proximity order. -/
theorem C6_fifo_once (j n : Nat) (q q0 : BfqQueue) (st : SchedState)
    (rq : Request) (r : bfqq_expiration) :
    ((bfq_check_fifo j q).2).fifoExpire = true
    ∧ (q.fifoExpire = true → bfq_check_fifo j q = (none, q))
    ∧ (∀ v, (__bfq_set_active_queue st (some q0)).1 = some v →
        v.fifoExpire = false)
    ∧ (bfq_bfqq_served q n).fifoExpire = q.fifoExpire
    ∧ ((bfq_dispatch_insert st q rq).2).fifoExpire = q.fifoExpire
    ∧ (__bfq_bfqq_recalc_budget st q r).fifoExpire = q.fifoExpire
    ∧ (bfq_bfqq_charge_full_budget q).fifoExpire = q.fifoExpire := by
  refine ⟨?_, ?_, ?_, rfl, ?_, recalc_fifoExpire st q r, rfl⟩
  · unfold bfq_check_fifo
    dsimp only
    split
    · next h => exact h
    · repeat' split
      all_goals rfl
  · intro h
    unfold bfq_check_fifo
    rw [if_pos h]
  · intro v hv
    unfold __bfq_set_active_queue at hv
    simp only [Option.some.injEq] at hv
    rw [← hv]
  · unfold bfq_dispatch_insert bfq_remove_request bfq_updated_next_req
    dsimp only
    repeat' split
    all_goals rfl

/-- C6 witness: the sticky FIFO check at concrete inputs. -/
theorem C6_fifo_once_witness :
    ((bfq_check_fifo 1000 qC2b).2).fifoExpire = true
    ∧ bfq_check_fifo 1000 { baseQueue with fifoExpire := true } =
        (none, { baseQueue with fifoExpire := true })
    ∧ (((__bfq_set_active_queue baseState (some qC2b)).1).getD
        baseQueue).fifoExpire = false := by
  have h := C6_fifo_once 1000 5 { baseQueue with fifoExpire := true } qC2b
    baseState rqC2b bfqq_expiration.BFQ_BFQQ_TOO_IDLE
  have h2 := C6_fifo_once 1000 5 qC2b qC2b baseState rqC2b
    bfqq_expiration.BFQ_BFQQ_TOO_IDLE
  exact ⟨h2.1, h.2.1 rfl,
    h.2.2.1 (((__bfq_set_active_queue baseState (some qC2b)).1).getD baseQueue) rfl⟩

/-- C8: with slice_idle = 0 the idle-slice timer is never armed (the arm
    function changes nothing); when the preconditions hold (active queue
    with the idle window, a live producer context), the timer is armed
    for slice_idle jiffies, reduced to at most BFQ_MIN_TT (2 ms) when
    the producer has valid seek samples and is seeky. -/
theorem C8_arm_slice_timer (st : SchedState) (q : BfqQueue) (cic : Cic)
    (ha : st.active = some q) (hc : st.activeCic = some cic) :
    (st.sliceIdle = 0 → bfq_arm_slice_timer st = st)
    ∧ (st.sliceIdle ≠ 0 → q.idleWindow = true → cic.nrTasks ≠ 0 →
        (bfq_arm_slice_timer st).timerExpires =
          some (st.jiffies +
            (if bfq_sample_valid cic.seekSamples ∧ CIC_SEEKY cic then
               min st.sliceIdle (msecs_to_jiffies BFQ_MIN_TT)
             else st.sliceIdle))) := by
  constructor
  · intro h0
    unfold bfq_arm_slice_timer
    rw [ha]
    dsimp only
    rw [if_pos (Or.inl h0)]
  · intro h0 hw hn
    unfold bfq_arm_slice_timer
    rw [ha]
    dsimp only
    rw [if_neg (by
      intro hor
      rcases hor with h1 | h1
      · exact h0 h1
      · rw [hw] at h1
        simp at h1)]
    rw [hc]
    dsimp only
    rw [if_neg hn]

/-- Sync queue with the idle window enabled and an empty sort tree,
    ready for idling. -/
def qC8 : BfqQueue := { baseQueue with qid := 5, sync := true, idleWindow := true }

/-- State about to arm the idle timer for queue 5. -/
def stC8 : SchedState := { baseState with
  active := some qC8, activeCic := some cic1 }

/-- C8 witness: the timer is armed for slice_idle = 8 jiffies at jiffies
    1000, and with slice_idle = 0 nothing happens. -/
theorem C8_arm_slice_timer_witness :
    (bfq_arm_slice_timer stC8).timerExpires =
      some (stC8.jiffies +
        (if bfq_sample_valid cic1.seekSamples ∧ CIC_SEEKY cic1 then
           min stC8.sliceIdle (msecs_to_jiffies BFQ_MIN_TT)
         else stC8.sliceIdle))
    ∧ bfq_arm_slice_timer { stC8 with sliceIdle := 0 } =
        { stC8 with sliceIdle := 0 } := by
  constructor
  · exact (C8_arm_slice_timer stC8 qC8 cic1 rfl rfl).2 (by decide) rfl (by decide)
  · exact (C8_arm_slice_timer { stC8 with sliceIdle := 0 } qC8 cic1 rfl rfl).1 rfl

/-- C9: the claim that the timer handler no-ops when the active queue
    differs from the queue that was idling fails: in this state the
    timer was armed for queue 1 (ghost idlingQid), the active queue is
    queue 2, and the handler expires queue 2 anyway (the code only
    checks for null, as its own comment concedes). -/
theorem C9_counterexample :
    stC9.idlingQid = some 1
    ∧ stC9.active.map (fun q => q.qid) = some 2
    ∧ (bfq_idle_slice_timer stC9).expiredTrace ≠ stC9.expiredTrace := by
  refine ⟨rfl, rfl, by decide⟩

/-- C9 (amended): when the idle-slice timer fires, the handler re-reads
    active_queue under the lock and no-ops only when it is null; any
    non-null active queue — even one different from the queue that was
    idling — is expired, with BUDGET_TIMEOUT if its slice budget timed
    out (or if the slow classification converts the TOO_IDLE), else
    TOO_IDLE, and a dispatch is scheduled. -/
theorem C9_handler (st : SchedState) :
    (∀ q, st.active = some q →
      (bfq_idle_slice_timer st).expiredTrace =
        st.expiredTrace ++ [(q.qid,
          if bfq_bfqq_budget_timeout st.jiffies q then
            bfqq_expiration.BFQ_BFQQ_BUDGET_TIMEOUT
          else if (bfq_update_peak_rate { st with timerExpires := none } q true).1 then
            bfqq_expiration.BFQ_BFQQ_BUDGET_TIMEOUT
          else bfqq_expiration.BFQ_BFQQ_TOO_IDLE)])
    ∧ (st.active = none →
        bfq_idle_slice_timer st = { st with timerExpires := none }) := by
  constructor
  · intro q hq
    unfold bfq_idle_slice_timer
    dsimp only
    rw [hq]
    dsimp only
    rw [expire_trace]
    by_cases hbt : bfq_bfqq_budget_timeout st.jiffies q = true
    · rw [if_pos hbt]
      simp [hbt]
    · rw [if_neg hbt]
      simp only [Bool.not_eq_true] at hbt
      simp [hbt]
  · intro h
    unfold bfq_idle_slice_timer
    dsimp only
    rw [h]

/-- C9 witness: the amended handler behavior at concrete states. -/
theorem C9_handler_witness :
    (bfq_idle_slice_timer stC9).expiredTrace =
      stC9.expiredTrace ++ [(qC9.qid,
        if bfq_bfqq_budget_timeout stC9.jiffies qC9 then
          bfqq_expiration.BFQ_BFQQ_BUDGET_TIMEOUT
        else if (bfq_update_peak_rate { stC9 with timerExpires := none }
            qC9 true).1 then
          bfqq_expiration.BFQ_BFQQ_BUDGET_TIMEOUT
        else bfqq_expiration.BFQ_BFQQ_TOO_IDLE)]
    ∧ bfq_idle_slice_timer baseState = { baseState with timerExpires := none } := by
  exact ⟨(C9_handler stC9).1 qC9 rfl, (C9_handler baseState).2 rfl⟩

theorem charge_ite_sortList (q : BfqQueue) (b : Prop) [Decidable b] :
    (if b then bfq_bfqq_charge_full_budget q else q).sortList = q.sortList := by
  split
  · exact (charge_fields q).2.1
  · rfl

theorem charge_ite_fifo (q : BfqQueue) (b : Prop) [Decidable b] :
    (if b then bfq_bfqq_charge_full_budget q else q).fifo = q.fifo := by
  split
  · exact (charge_fields q).2.2.1
  · rfl

theorem charge_ite_nextRq (q : BfqQueue) (b : Prop) [Decidable b] :
    (if b then bfq_bfqq_charge_full_budget q else q).nextRq = q.nextRq := by
  split
  · exact (charge_fields q).2.2.2.1
  · rfl

theorem reset_busy (st : SchedState) (q2 : BfqQueue) (h : q2.sortList ≠ []) :
    (__bfq_bfqq_expire st q2).busy = st.busy ++ [{ q2 with busy := true }] := by
  have hne : q2.sortList.isEmpty = false := by
    cases hq : q2.sortList with
    | nil => exact absurd hq h
    | cons a l => rfl
  unfold __bfq_bfqq_expire
  dsimp only
  rw [if_neg (by simp [hne])]

theorem expire_shape (st : SchedState) (q : BfqQueue) (c : Bool)
    (reason : bfqq_expiration) :
    ∃ q3 st3, bfq_bfqq_expire st q c reason = __bfq_bfqq_expire st3 q3
      ∧ q3.sortList = q.sortList ∧ q3.fifo = q.fifo ∧ q3.nextRq = q.nextRq
      ∧ st3.busy = st.busy := by
  unfold bfq_bfqq_expire
  dsimp only
  refine ⟨_, _, rfl, ?_, ?_, ?_, ?_⟩
  · rw [recalc_sortList, charge_ite_sortList]
  · rw [recalc_fifo, charge_ite_fifo]
  · rw [recalc_nextRq, charge_ite_nextRq]
  · dsimp only
    rw [upr_busy]

theorem expire_busy (st : SchedState) (q : BfqQueue) (c : Bool)
    (reason : bfqq_expiration) (h : q.sortList ≠ []) :
    ∃ q2, (bfq_bfqq_expire st q c reason).busy = st.busy ++ [q2]
      ∧ q2.sortList = q.sortList ∧ q2.fifo = q.fifo ∧ q2.nextRq = q.nextRq := by
  obtain ⟨q3, st3, heq, hsl, hff, hnx, hbusy⟩ := expire_shape st q c reason
  rw [heq]
  refine ⟨{ q3 with busy := true }, ?_, ?_, ?_, ?_⟩
  · rw [reset_busy st3 q3 (by rw [hsl]; exact h), hbusy]
  · simpa using hsl
  · simpa using hff
  · simpa using hnx

/-- C5: whenever the request chosen for dispatch (FIFO-expired path or
    next_rq) has more sectors than the queue's remaining budget, the
    dispatch loop expires the queue with BUDGET_EXHAUSTED: nothing more
    is dispatched in this call (the count stays at the requests already
    moved), the driver list is unchanged by the failed attempt, and the
    queue is re-queued with its sort tree and FIFO intact and the
    oversized request retained as next_rq. -/
theorem C5_budget_exhaustion (fuel : Nat) (st : SchedState) (q : BfqQueue)
    (md d : Nat) (rq : Request)
    (hsel : (bfq_next_dispatch st.jiffies q).1 = some rq)
    (hlen : rq.len > bfq_bfqq_budget_left q)
    (hne : q.sortList ≠ []) :
    (__bfq_dispatch_go (fuel + 1) st q md d).1 = d
    ∧ ((__bfq_dispatch_go (fuel + 1) st q md d).2).driver = st.driver
    ∧ ((__bfq_dispatch_go (fuel + 1) st q md d).2).expiredTrace =
        st.expiredTrace ++ [(q.qid, bfqq_expiration.BFQ_BFQQ_BUDGET_EXHAUSTED)]
    ∧ ∃ q2, ((__bfq_dispatch_go (fuel + 1) st q md d).2).busy = st.busy ++ [q2]
        ∧ q2.sortList = q.sortList ∧ q2.fifo = q.fifo ∧ q2.nextRq = some rq := by
  obtain ⟨fe, hq1⟩ := next_dispatch_state st.jiffies q
  have hgo : __bfq_dispatch_go (fuel + 1) st q md d =
      (d, bfq_bfqq_expire st { q with fifoExpire := fe, nextRq := some rq } false
            bfqq_expiration.BFQ_BFQQ_BUDGET_EXHAUSTED) := by
    unfold __bfq_dispatch_go
    dsimp only
    rcases hnd : bfq_next_dispatch st.jiffies q with ⟨rqo, q1⟩
    rw [hnd] at hsel hq1
    dsimp only at hsel hq1
    subst hsel
    subst hq1
    dsimp only
    rw [if_pos (by simpa [bfq_bfqq_budget_left] using hlen)]
  rw [hgo]
  dsimp only
  refine ⟨rfl, expire_driver _ _ _ _, ?_, ?_⟩
  · rw [expire_trace]
    have hupr : ¬((bfq_update_peak_rate st
        { q with fifoExpire := fe, nextRq := some rq } false).1 = true ∧
        bfqq_expiration.BFQ_BFQQ_BUDGET_EXHAUSTED =
          bfqq_expiration.BFQ_BFQQ_TOO_IDLE) := by
      intro hcon
      exact absurd hcon.2 (by decide)
    rw [if_neg hupr]
  · obtain ⟨q2, hb, hsl, hff, hnx⟩ := expire_busy st
      { q with fifoExpire := fe, nextRq := some rq } false
      bfqq_expiration.BFQ_BFQQ_BUDGET_EXHAUSTED (by simpa using hne)
    exact ⟨q2, hb, by simpa using hsl, by simpa using hff, by simpa using hnx⟩

/-- Oversized request: 200 sectors against a 100 sector budget. -/
def rqC5 : Request := { rid := 20, qid := 6, pos := 500, len := 200,
                        sync := true, meta := false, fifoTime := 0, cic := cic1 }

/-- Queue whose next request exceeds its remaining budget. -/
def qC5 : BfqQueue := { baseQueue with
  qid := 6, sortList := [rqC5], fifo := [], nextRq := some rqC5,
  budget := 100, service := 0, sync := true, busy := true }

/-- C5 witness: the oversized request triggers BUDGET_EXHAUSTED with no
    dispatch. -/
theorem C5_budget_exhaustion_witness :
    (__bfq_dispatch_go 1 baseState qC5 4 0).1 = 0
    ∧ ((__bfq_dispatch_go 1 baseState qC5 4 0).2).driver = baseState.driver
    ∧ ((__bfq_dispatch_go 1 baseState qC5 4 0).2).expiredTrace =
        baseState.expiredTrace ++
          [(qC5.qid, bfqq_expiration.BFQ_BFQQ_BUDGET_EXHAUSTED)] := by
  have h := C5_budget_exhaustion 0 baseState qC5 4 0 rqC5 rfl (by decide) (by decide)
  exact ⟨h.1, h.2.1, h.2.2.1⟩

theorem budget_timeout_budgetNew (j : Nat) (q : BfqQueue)
    (h : q.budgetNew = true) : bfq_bfqq_budget_timeout j q = false := by
  unfold bfq_bfqq_budget_timeout
  rw [if_pos h]

theorem timeBefore_add (j t : Nat) (h1 : 0 < t) (h2 : t < 2 ^ 31)
    (h3 : j + t < W32) : timeBefore j (j + t) = true := by
  unfold W32 at h3
  unfold timeBefore W32
  simp only [decide_eq_true_eq]
  omega

theorem stamp_pred (j t : Nat) (q : BfqQueue) (h1 : 0 < t) (h2 : t < 2 ^ 31)
    (h3 : j + t < W32) :
    bfq_bfqq_budget_timeout j
      { q with budgetNew := false, budgetTimeout := j + t } = false := by
  unfold bfq_bfqq_budget_timeout
  simp [timeBefore_add j t h1 h2 h3]

theorem hw_tag_state (st : SchedState) :
    ∃ m h t, bfq_update_hw_tag st =
      { st with maxRqInDriver := m, hwTagSamples := h, hwTag := t } := by
  unfold bfq_update_hw_tag
  dsimp only
  repeat' split
  all_goals exact ⟨_, _, _, rfl⟩

theorem arm_trace (st : SchedState) :
    (bfq_arm_slice_timer st).expiredTrace = st.expiredTrace := by
  unfold bfq_arm_slice_timer
  dsimp only
  repeat' split
  all_goals rfl

theorem select_no_bt (st : SchedState) (q : BfqQueue)
    (ha : st.active = some q) (hb : q.budgetNew = true) :
    ∀ e ∈ ((bfq_select_queue st).2).expiredTrace,
      e ∈ st.expiredTrace ∨ e.2 ≠ bfqq_expiration.BFQ_BFQQ_BUDGET_TIMEOUT := by
  unfold bfq_select_queue
  rw [ha]
  dsimp only
  rw [if_neg (by simp [budget_timeout_budgetNew st.jiffies q hb])]
  cases hnx : q.nextRq with
  | some r =>
    dsimp only
    split
    · intro e he
      rw [set_active_trace, expire_trace] at he
      rw [if_neg (by
        intro hcon
        exact absurd hcon.2 (by decide))] at he
      rw [List.mem_append] at he
      rcases he with he | he
      · exact Or.inl he
      · right
        rw [List.mem_singleton] at he
        subst he
        simp
    · intro e he
      exact Or.inl he
  | none =>
    dsimp only
    split
    · intro e he
      exact Or.inl he
    · intro e he
      rw [set_active_trace, expire_trace] at he
      rw [if_neg (by
        intro hcon
        exact absurd hcon.2 (by decide))] at he
      rw [List.mem_append] at he
      rcases he with he | he
      · exact Or.inl he
      · right
        rw [List.mem_singleton] at he
        subst he
        simp

theorem handler_too_idle (st : SchedState) (q : BfqQueue)
    (ha : st.active = some q) (hb : q.budgetNew = true) :
    (bfq_idle_slice_timer st).expiredTrace =
      st.expiredTrace ++ [(q.qid, bfqq_expiration.BFQ_BFQQ_TOO_IDLE)] := by
  unfold bfq_idle_slice_timer
  dsimp only
  rw [ha]
  dsimp only
  rw [expire_trace, upr_budgetNew_false _ q true hb]
  have hbt := budget_timeout_budgetNew st.jiffies q hb
  have hr : (if bfq_bfqq_budget_timeout st.jiffies q = true then
      bfqq_expiration.BFQ_BFQQ_BUDGET_TIMEOUT
    else bfqq_expiration.BFQ_BFQQ_TOO_IDLE) =
      bfqq_expiration.BFQ_BFQQ_TOO_IDLE := by
    rw [hbt]
    simp
  rw [hr]
  dsimp only
  rw [if_neg (by simp)]

set_option maxHeartbeats 3200000 in
theorem completed_trace_budgetNew (st : SchedState) (q : BfqQueue) (rq : Request)
    (ha : st.active = some q) (hb : q.budgetNew = true)
    (h1 : 0 < (if q.sync = true then st.timeoutSync else st.timeoutAsync))
    (h2 : (if q.sync = true then st.timeoutSync else st.timeoutAsync) < 2 ^ 31)
    (h3 : st.jiffies + (if q.sync = true then st.timeoutSync else st.timeoutAsync) < W32) :
    (bfq_completed_request st rq).expiredTrace = st.expiredTrace := by
  obtain ⟨m, hsm, tg, hhw⟩ := hw_tag_state st
  unfold bfq_completed_request
  rw [hhw]
  try dsimp only
  by_cases hrs : rq.sync = true
  case pos =>
    rw [if_pos hrs]
    try dsimp only
    rw [ha]
    try dsimp only
    by_cases hqq : q.qid = rq.qid
    · rw [if_pos hqq]
      try dsimp only
      by_cases hqs : q.sync = true
      · simp only [if_pos hqs] at h1 h2 h3 ⊢
        rw [if_pos hb]
        unfold bfq_set_budget_timeout
        try dsimp only
        simp only [if_pos hqs]
        rw [if_neg (by
          simp only [Bool.not_eq_true]
          exact stamp_pred st.jiffies st.timeoutSync { q with dispatched := q.dispatched - 1 } h1 h2 h3)]
        repeat' split
        all_goals try rw [arm_trace]
        all_goals rfl
      · simp only [if_neg hqs] at h1 h2 h3 ⊢
        rw [if_pos hb]
        unfold bfq_set_budget_timeout
        try dsimp only
        simp only [if_neg hqs]
        rw [if_neg (by
          simp only [Bool.not_eq_true]
          exact stamp_pred st.jiffies st.timeoutAsync { q with dispatched := q.dispatched - 1 } h1 h2 h3)]
        repeat' split
        all_goals try rw [arm_trace]
        all_goals rfl
    · rw [if_neg hqq]
      try dsimp only
      repeat' split
      all_goals rfl
  case neg =>
    rw [if_neg hrs]
    try dsimp only
    rw [ha]
    try dsimp only
    by_cases hqq : q.qid = rq.qid
    · rw [if_pos hqq]
      try dsimp only
      by_cases hqs : q.sync = true
      · simp only [if_pos hqs] at h1 h2 h3 ⊢
        rw [if_pos hb]
        unfold bfq_set_budget_timeout
        try dsimp only
        simp only [if_pos hqs]
        rw [if_neg (by
          simp only [Bool.not_eq_true]
          exact stamp_pred st.jiffies st.timeoutSync { q with dispatched := q.dispatched - 1 } h1 h2 h3)]
        repeat' split
        all_goals try rw [arm_trace]
        all_goals rfl
      · simp only [if_neg hqs] at h1 h2 h3 ⊢
        rw [if_pos hb]
        unfold bfq_set_budget_timeout
        try dsimp only
        simp only [if_neg hqs]
        rw [if_neg (by
          simp only [Bool.not_eq_true]
          exact stamp_pred st.jiffies st.timeoutAsync { q with dispatched := q.dispatched - 1 } h1 h2 h3)]
        repeat' split
        all_goals try rw [arm_trace]
        all_goals rfl
    · rw [if_neg hqq]
      try dsimp only
      repeat' split
      all_goals rfl

/-- C10: while the active queue's budget_new flag is set (no request of
    the slice has completed), the budget-timeout predicate is false, so
    the queue cannot be expired with BUDGET_TIMEOUT: queue selection
    produces no BUDGET_TIMEOUT expiration events, the idle-slice timer
    records a plain TOO_IDLE (the slow conversion is also disabled while
    budget_new is set), and a request completion — including the one
    that stamps budget_timeout and clears budget_new — expires nothing
    (for any sane per-direction timeout). -/
theorem C10_no_early_budget_timeout (st : SchedState) (q : BfqQueue)
    (rq : Request) (ha : st.active = some q) (hb : q.budgetNew = true)
    (h1 : 0 < (if q.sync = true then st.timeoutSync else st.timeoutAsync))
    (h2 : (if q.sync = true then st.timeoutSync else st.timeoutAsync) < 2 ^ 31)
    (h3 : st.jiffies +
      (if q.sync = true then st.timeoutSync else st.timeoutAsync) < W32) :
    bfq_bfqq_budget_timeout st.jiffies q = false
    ∧ (∀ e ∈ ((bfq_select_queue st).2).expiredTrace,
        e ∈ st.expiredTrace ∨ e.2 ≠ bfqq_expiration.BFQ_BFQQ_BUDGET_TIMEOUT)
    ∧ (bfq_idle_slice_timer st).expiredTrace =
        st.expiredTrace ++ [(q.qid, bfqq_expiration.BFQ_BFQQ_TOO_IDLE)]
    ∧ (bfq_completed_request st rq).expiredTrace = st.expiredTrace :=
  ⟨budget_timeout_budgetNew st.jiffies q hb, select_no_bt st q ha hb,
    handler_too_idle st q ha hb,
    completed_trace_budgetNew st q rq ha hb h1 h2 h3⟩

/-- C10 witness: a fresh (budget_new) active queue at the default
    timeouts is not BUDGET_TIMEOUT-expired by the timer handler and a
    completion expires nothing. -/
theorem C10_no_early_budget_timeout_witness :
    bfq_bfqq_budget_timeout stC9.jiffies qC9 = false
    ∧ (bfq_idle_slice_timer stC9).expiredTrace =
        stC9.expiredTrace ++ [(qC9.qid, bfqq_expiration.BFQ_BFQQ_TOO_IDLE)]
    ∧ (bfq_completed_request stC9 rqC2b).expiredTrace = stC9.expiredTrace := by
  have h := C10_no_early_budget_timeout stC9 qC9 rqC2b rfl rfl
    (by decide) (by decide) (by decide)
  exact ⟨h.1, h.2.2.1, h.2.2.2⟩

end BFQ
